import Mathlib

/-!
# sphere-orvibo: the configuration UI of the Orvibo AllOne driver

A shallow embedding of `configuration.go`: the screens built by `configService`
(`list`, `new`, `newgroup`, `confirm`, `error`) and the request router `Configure`,
which reads and mutates the process-wide `driver.config`.

Conventions of the embedding:

* the global `driver` is passed explicitly and the updated driver is returned; its
  `config` is the loaded configuration (the pointer is not nil);
* a Go slice is a `List` (the nil slice is `[]`), a Go `map[string]string` is an
  association list read with `lookup` (a missing key reads as the empty string);
* a run-time panic of the Go code is the `Except.error` result of `Configure`;
* calls into other packages whose result the source discards (`fmt.Println`,
  `orvibo.EmitIR`, `orvibo.EnterLearningMode`, `driver.SendEvent`) do not touch
  `driver.config` and are left out;
* every function of the source returns a `nil` error next to its screen; only the
  screen is kept.
-/

set_option autoImplicit false

namespace SphereOrvibo

/-! ## Screens (the fields of package `suit` that the source sets) -/

/-- A `suit.ReplyAction`: a button whose `Name` becomes the next request's action. -/
structure ReplyAction where
  Name : String
  Label : String
  DisplayClass : String
  DisplayIcon : String
deriving DecidableEq

/-- A `suit.ActionListOption`: one row of an action list. -/
structure ActionListOption where
  Title : String
  Subtitle : String
  Value : String
deriving DecidableEq

/-- A `suit.RadioGroupOption`: one choice of a radio group. -/
structure RadioGroupOption where
  Title : String
  Value : String
  DisplayIcon : String
deriving DecidableEq

/-- The `suit.Typed` values the source builds, one constructor per Go struct. -/
inductive Typed where
  | StaticText (Title Value : String)
  | Alert (Title Subtitle DisplayClass : String)
  | ActionList (Name : String) (Options : List ActionListOption)
      (PrimaryAction SecondaryAction : Option ReplyAction)
  | InputHidden (Name Value : String)
  | InputText (Name Before Placeholder Value : String)
  | RadioGroup (Title Name : String) (Options : List RadioGroupOption)
  | Reply (action : ReplyAction)
  | CloseAction (Label : String)
deriving DecidableEq

/-- A `suit.Section`. -/
structure Section where
  Contents : List Typed
deriving DecidableEq

/-- A `suit.ConfigurationScreen`; an unset `Title` is the empty string. -/
structure ConfigurationScreen where
  Title : String
  Sections : List Section
  Actions : List Typed
deriving DecidableEq

/-! ## The driver state -/

/-- Modelled from the spec: the type `OrviboIRCode` is declared outside `configuration.go`;
these are the fields the source reads (`Name`, `Description`, `Code`, `AllOne`, `Group`),
the CodeEntry of the data model. -/
structure OrviboIRCode where
  Name : String
  Description : String
  Code : String
  AllOne : String
  Group : String
deriving DecidableEq

/-- Modelled from the spec: the type `OrviboIRCodeGroup` is declared outside
`configuration.go`; the source builds it from `Name` and `Description`. -/
structure OrviboIRCodeGroup where
  Name : String
  Description : String
deriving DecidableEq

/-- Modelled from the spec: the type `OrviboDriverConfig` is declared outside
`configuration.go`; these are the fields the source reads and writes: the code store
(`Codes`, `CodeGroups`) and the learning session (`learningIR` and the pending fields). -/
structure OrviboDriverConfig where
  Codes : List OrviboIRCode
  CodeGroups : List OrviboIRCodeGroup
  learningIR : Bool
  learningIRName : String
  learningIRDescription : String
  learningIRDevice : String
  learningIRGroup : String
deriving DecidableEq

/-- Modelled from the spec: an entry of `driver.device`, declared outside
`configuration.go`; the source reads `Device.DeviceType`, `Device.Name` and
`Device.MACAddress`. -/
structure OrviboDevice where
  DeviceType : Int
  Name : String
  MACAddress : String
deriving DecidableEq

/-- The global `driver`: its configuration and its devices, in the order the source's
`range driver.device` visits them. -/
structure OrviboDriver where
  config : OrviboDriverConfig
  device : List OrviboDevice
deriving DecidableEq

/-- What `configuration.go` uses and does not define: the constant `orvibo.ALLONE` and the
driver methods `deleteIR` and `saveGroups`, each as the change it makes to the
configuration it is handed. -/
structure External where
  ALLONE : Int
  deleteIR : OrviboDriverConfig → String → OrviboDriverConfig
  saveGroups : OrviboDriverConfig → OrviboDriverConfig

/-! ## Requests -/

/-- The outcome of `json.Unmarshal(request.Data, &vals)` for `vals : map[string]string`:
the bindings of `vals` after the call (none for a nil map) and the error returned
(`none` for `nil`). The decoder is Go's standard library; its outcome is an input here. -/
structure Unmarshal where
  vals : List (String × String)
  err : Option String
deriving DecidableEq

/-- A `model.ConfigurationRequest`: the action, the raw payload, and what decoding the
payload gives. -/
structure ConfigurationRequest where
  Action : String
  Data : String
  json : Unmarshal
deriving DecidableEq

/-- Go's `vals[key]` on a `map[string]string`: the bound value, `""` for a missing key. -/
def lookup (vals : List (String × String)) (key : String) : String :=
  match vals.find? (fun kv => kv.1 = key) with
  | some kv => kv.2
  | none => ""

/-- The pieces of a character sequence between occurrences of `sep`; `cur` holds, reversed,
the characters of the piece being read. -/
def splitAux (sep : Char) : List Char → List Char → List (List Char)
  | cur, [] => [cur.reverse]
  | cur, c :: cs =>
    if c = sep then cur.reverse :: splitAux sep [] cs else splitAux sep (c :: cur) cs

/-- Go's `strings.Split(s, sep)` for a one-character separator: always at least one
piece, one more than the occurrences of `sep`. -/
def Split (s : String) (sep : Char) : List String :=
  (splitAux sep [] s.data).map String.mk

/-- A run-time panic of the Go code. -/
inductive Fault where
  | indexOutOfRange (index length : Nat)
deriving DecidableEq

/-- Go's `xs[i]` on a slice: panics when `i` is not below the length. -/
def index (xs : List String) (i : Nat) : Except Fault String :=
  match xs.get? i with
  | some x => .ok x
  | none => .error (.indexOutOfRange i xs.length)

/-! ## The screens -/

/-- The method `configService.confirm`. -/
def confirm (title description : String) : ConfigurationScreen :=
  { Title := title
    Sections := [⟨[.StaticText "About this screen" description]⟩]
    Actions := [.Reply { Label := "Okay", Name := "list", DisplayClass := "success",
                         DisplayIcon := "ok" }] }

/-- The method `configService.error`. -/
def error (message : String) : ConfigurationScreen :=
  { Title := ""
    Sections := [⟨[.Alert "Error" message "danger"]⟩]
    Actions := [.Reply { Label := "Cancel", Name := "list", DisplayClass := "success",
                         DisplayIcon := "ok" }] }

/-- The option `list` appends for a saved code (the struct literal of its inner loop). -/
def codeOption (code : OrviboIRCode) : ActionListOption :=
  { Title := code.Name
    Subtitle := code.Description
    Value := code.Code ++ "|" ++ code.AllOne }

/-- The section `list` appends for a group, given the options collected for it. -/
def groupSection (groups : OrviboIRCodeGroup) (codes : List ActionListOption) : Section :=
  ⟨[ .StaticText groups.Name groups.Description,
     .ActionList "code" codes
       (some { Name := "blastir", Label := "Blast", DisplayIcon := "star",
               DisplayClass := "danger" })
       (some { Name := "delete", Label := "Delete", DisplayIcon := "trash",
               DisplayClass := "danger" }) ]⟩

/-- The inner loop of `list`: over all saved codes, appending to `codes` an option for
each code whose `Group` is the group's name. -/
def listCodes (groups : OrviboIRCodeGroup) (codes : List ActionListOption)
    (saved : List OrviboIRCode) : List ActionListOption :=
  saved.foldl
    (fun codes code => if code.Group = groups.Name then codes ++ [codeOption code] else codes)
    codes

/-- One pass of the outer loop of `list` on the loop variables `(codes, sections)`: collect
the group's options, append its section, reset `codes` to nil. -/
def listStep (saved : List OrviboIRCode)
    (st : List ActionListOption × List Section) (groups : OrviboIRCodeGroup) :
    List ActionListOption × List Section :=
  let codes := listCodes groups st.1 saved
  let sections := st.2 ++ [groupSection groups codes]
  ([], sections)

/-- The method `configService.list`. -/
def list (driver : OrviboDriver) : ConfigurationScreen :=
  let st := driver.config.CodeGroups.foldl (listStep driver.config.Codes) ([], [])
  { Title := "Saved IR Codes"
    Sections := st.2
    Actions :=
      [ .CloseAction "Close",
        .Reply { Label := "New IR Code", Name := "new", DisplayClass := "success",
                 DisplayIcon := "asterisk" },
        .Reply { Label := "New IR Group", Name := "newgroup", DisplayClass := "default",
                 DisplayIcon := "asterisk" } ] }

/-- The method `configService.new`. -/
def new (ext : External) (driver : OrviboDriver) : ConfigurationScreen :=
  let allones : List RadioGroupOption :=
    [{ Title := "All Connected AllOnes", Value := "ALL", DisplayIcon := "globe" }]
  let groups : List RadioGroupOption :=
    driver.config.CodeGroups.foldl
      (fun groups codegroup =>
        groups ++ [{ Title := codegroup.Name, Value := codegroup.Name,
                     DisplayIcon := "folder-open" }])
      []
  let allones :=
    driver.device.foldl
      (fun allones allone =>
        if allone.DeviceType = ext.ALLONE then
          allones ++ [{ Title := allone.Name, DisplayIcon := "play",
                        Value := allone.MACAddress }]
        else allones)
      allones
  { Title := "New IR Code"
    Sections :=
      [⟨[ .StaticText "About this screen"
            "Please enter a name and a description for this code. You must also pick an AllOne. When you\x27re ready, click \x27Start Learning\x27 and press a button on your remote",
          .InputHidden "id" "",
          .InputText "name" "Name for this code" "TV On" "",
          .InputText "description" "Code Description" "Living Room TV On" "",
          .RadioGroup "Select an AllOne to blast from" "allone" allones,
          .RadioGroup "Select a group to add this code to" "group" groups ]⟩]
    Actions :=
      [ .Reply { Label := "Cancel", Name := "list", DisplayClass := "default",
                 DisplayIcon := "" },
        .Reply { Label := "Start Learning", Name := "save", DisplayClass := "success",
                 DisplayIcon := "star" } ] }

/-- The method `configService.newgroup`. -/
def newgroup : ConfigurationScreen :=
  { Title := "New Code Group"
    Sections :=
      [⟨[ .StaticText "About this screen"
            "On this page you can create a new group to put your codes in. For example, you might create a group called \x27Living Room\x27 to store codes relating to your home theater in your living room",
          .InputHidden "id" "",
          .InputText "name" "Name for this group" "Home Theater" "",
          .InputText "description" "Description of this group"
            "Codes related to the home theater" "" ]⟩]
    Actions :=
      [ .Reply { Label := "Cancel", Name := "list", DisplayClass := "default",
                 DisplayIcon := "" },
        .Reply { Label := "Save Group", Name := "savegroup", DisplayClass := "success",
                 DisplayIcon := "star" } ] }

/-- The message of the three guarded payload readers:
`fmt.Sprintf("Failed to unmarshal save config request %s: %s", request.Data, err)`. -/
def unmarshalMessage (data err : String) : String :=
  "Failed to unmarshal save config request " ++ data ++ ": " ++ err

/-! ## The router -/

/-- The method `configService.Configure`: the `switch` on `request.Action`, case by case in
the order of the source. The result is the screen and the driver after the request, or
the panic that ended the call. -/
def Configure (ext : External) (driver : OrviboDriver) (request : ConfigurationRequest) :
    Except Fault (ConfigurationScreen × OrviboDriver) :=
  if request.Action = "list" then
    .ok (list driver, driver)
  else if request.Action = "blastir" then
    -- the error of json.Unmarshal is not read here
    let vals := request.json.vals
    let codes := Split (lookup vals "code") '|'
    match index codes 0, index codes 1 with
    | .ok _, .ok _ => .ok (list driver, driver)
    | .error f, _ => .error f
    | _, .error f => .error f
  else if request.Action = "new" then
    .ok (new ext driver, driver)
  else if request.Action = "reset" then
    let driver := { driver with config :=
      { driver.config with Codes := [], learningIR := false, learningIRName := "" } }
    .ok (list driver, driver)
  else if request.Action = "delete" then
    match request.json.err with
    | some err => .ok (error (unmarshalMessage request.Data err), driver)
    | none =>
      let codes := Split (lookup request.json.vals "code") '|'
      match index codes 0 with
      | .error f => .error f
      | .ok code =>
        let driver := { driver with config := ext.deleteIR driver.config code }
        .ok (list driver, driver)
  else if request.Action = "newgroup" then
    .ok (newgroup, driver)
  else if request.Action = "savegroup" then
    match request.json.err with
    | some err => .ok (error (unmarshalMessage request.Data err), driver)
    | none =>
      let vals := request.json.vals
      let driver := { driver with config :=
        { driver.config with CodeGroups := driver.config.CodeGroups ++
            [OrviboIRCodeGroup.mk (lookup vals "name") (lookup vals "description")] } }
      let driver := { driver with config := ext.saveGroups driver.config }
      .ok (list driver, driver)
  else if request.Action = "save" then
    match request.json.err with
    | some err => .ok (error (unmarshalMessage request.Data err), driver)
    | none =>
      let vals := request.json.vals
      let driver := { driver with config :=
        { driver.config with
            learningIR := true
            learningIRName := lookup vals "name"
            learningIRDescription := lookup vals "description"
            learningIRDevice := lookup vals "allone"
            learningIRGroup := lookup vals "group" } }
      .ok (confirm "Learning IR code"
            "Please press a button on your remote. Click \x27Okay\x27 when done", driver)
  else if request.Action = "" then
    .ok (list driver, driver)
  else
    .ok (error ("Unknown action: " ++ request.Action), driver)

/-- Serving requests one after the other, each on the driver the one before left; stops at
the first panic. -/
def ConfigureAll (ext : External) :
    OrviboDriver → List ConfigurationRequest → Except Fault OrviboDriver
  | driver, [] => .ok driver
  | driver, request :: rest =>
    match Configure ext driver request with
    | .ok (_, driver') => ConfigureAll ext driver' rest
    | .error f => .error f

/-! ## Reading a screen -/

/-- The title of the static text a section opens with, if it opens with one. -/
def Section.title (s : Section) : Option String :=
  match s.Contents with
  | .StaticText title _ :: _ => some title
  | _ => none

/-- The options of the action lists of a section, in order. -/
def Section.options (s : Section) : List ActionListOption :=
  s.Contents.foldr
    (fun t acc =>
      match t with
      | .ActionList _ os _ _ => os ++ acc
      | _ => acc)
    []

/-- A section lists a saved code when it is titled with the code's group and holds the
code's option. -/
def listsEntry (s : Section) (code : OrviboIRCode) : Bool :=
  decide (s.title = some code.Group) && decide (codeOption code ∈ s.options)

/-- The number of options on a screen, over all its sections. -/
def optionCount (screen : ConfigurationScreen) : Nat :=
  (screen.Sections.map (fun s => s.options.length)).sum

/-- The group a `savegroup` request creates. -/
def createdGroup (request : ConfigurationRequest) : OrviboIRCodeGroup :=
  { Name := lookup request.json.vals "name"
    Description := lookup request.json.vals "description" }

/-- The driver with its `k`-th saved code (counting from 0) taken out of the store. -/
def withoutCode (driver : OrviboDriver) (k : Nat) : OrviboDriver :=
  { driver with config := { driver.config with Codes := driver.config.Codes.eraseIdx k } }

/-- The number of sections of the list screen in which the `k`-th saved code appears: the
sections, position by position, that `list` builds differently once that code is taken
out of the store. -/
def sectionsShowing (driver : OrviboDriver) (k : Nat) : Nat :=
  ((list driver).Sections.zip (list (withoutCode driver k)).Sections).countP
    (fun p => decide (p.1 ≠ p.2))

/-! ## Concrete inputs -/

/-- Modelled from the spec: `driver.deleteIR` is defined outside `configuration.go`. The
spec's `deleteCode` removes the first matching entry and does nothing when none matches;
the match is on the code payload, the one argument the source passes. -/
def deleteIR (config : OrviboDriverConfig) (code : String) : OrviboDriverConfig :=
  { config with Codes := config.Codes.eraseP (fun c => decide (c.Code = code)) }

/-- Modelled from the spec: `driver.saveGroups` is defined outside `configuration.go`. The
spec makes it the persistence write and the notification that follow a mutation; the
configuration it is handed stays as it is. -/
def saveGroups (config : OrviboDriverConfig) : OrviboDriverConfig := config

/-- Modelled from the spec: the constant `orvibo.ALLONE` is defined outside
`configuration.go`; any tag serves, the AllOne capability flag of the data model. -/
def ALLONE : Int := 1

/-- The collaborators of `configuration.go` as the spec describes them. -/
def external : External := ⟨ALLONE, deleteIR, saveGroups⟩

/-- A saved code: "TV On" of the group "Home Theater". -/
def tvOn : OrviboIRCode :=
  { Name := "TV On", Description := "Living Room TV On", Code := "A1B2C3",
    AllOne := "AA:BB:CC:DD:EE:FF", Group := "Home Theater" }

/-- A driver with one group, one saved code and no learning session. -/
def idleDriver : OrviboDriver :=
  { config :=
      { Codes := [tvOn]
        CodeGroups := [⟨"Home Theater", "Codes related to the home theater"⟩]
        learningIR := false
        learningIRName := ""
        learningIRDescription := ""
        learningIRDevice := ""
        learningIRGroup := "" }
    device := [⟨ALLONE, "AllOne", "AA:BB:CC:DD:EE:FF"⟩] }

/-- The driver `idleDriver` with a learning session armed for "TV Off". -/
def armedDriver : OrviboDriver :=
  { idleDriver with config :=
      { idleDriver.config with
          learningIR := true
          learningIRName := "TV Off"
          learningIRDescription := "Living Room TV Off"
          learningIRDevice := "AA:BB:CC:DD:EE:FF"
          learningIRGroup := "Home Theater" } }

/-- A request with the payload `\x7b"name":.., "description":.., "allone":.., "group":..\x7d`
of the form "New IR Code". -/
def saveRequest : ConfigurationRequest :=
  { Action := "save"
    Data := "\x7b\"name\":\"TV Off\",\"description\":\"Living Room TV Off\",\"allone\":\"AA:BB:CC:DD:EE:FF\",\"group\":\"Home Theater\"\x7d"
    json :=
      { vals := [("name", "TV Off"), ("description", "Living Room TV Off"),
                 ("allone", "AA:BB:CC:DD:EE:FF"), ("group", "Home Theater")]
        err := none } }

/-- A request with no payload for the given action. -/
def bareRequest (action : String) : ConfigurationRequest :=
  { Action := action, Data := "", json := { vals := [], err := some "unexpected end of JSON input" } }

/-- A `blastir` request whose payload `\x7b"code":"A1B2C3"\x7d` parses and whose code has
no separator. -/
def blastRequest : ConfigurationRequest :=
  { Action := "blastir"
    Data := "\x7b\"code\":\"A1B2C3\"\x7d"
    json := { vals := [("code", "A1B2C3")], err := none } }

/-- A `savegroup` request creating the group with the given name and description. -/
def savegroupRequest (name description : String) : ConfigurationRequest :=
  { Action := "savegroup"
    Data := "\x7b\"name\":\"" ++ name ++ "\",\"description\":\"" ++ description ++ "\"\x7d"
    json := { vals := [("name", name), ("description", description)], err := none } }

/-- A driver whose two groups share the name of the group of its one saved code. -/
def twinGroupsDriver : OrviboDriver :=
  { idleDriver with config :=
      { idleDriver.config with
          CodeGroups := [⟨"Home Theater", "upstairs"⟩, ⟨"Home Theater", "downstairs"⟩] } }

/-- A driver with three groups of distinct names and five saved codes: two of "Home
Theater", one of "Bedroom", one of a group "Garage" that does not exist, and one with the
option of `tvOn` but of the group "Kitchen". -/
def houseDriver : OrviboDriver :=
  { idleDriver with config :=
      { idleDriver.config with
          CodeGroups :=
            [⟨"Home Theater", "Codes related to the home theater"⟩,
             ⟨"Bedroom", "Bedroom codes"⟩, ⟨"Kitchen", ""⟩]
          Codes :=
            [tvOn,
             ⟨"TV Off", "Living Room TV Off", "D4E5F6", "AA:BB:CC:DD:EE:FF", "Home Theater"⟩,
             ⟨"Lamp", "Bedside lamp", "0708", "11:22:33:44:55:66", "Bedroom"⟩,
             ⟨"Door", "Garage door", "090A", "11:22:33:44:55:66", "Garage"⟩,
             { tvOn with Group := "Kitchen" }] } }

/-! ## What `list` builds -/

/-- The options `list` collects for a group: the saved codes of that group, in order. -/
theorem listCodes_eq (groups : OrviboIRCodeGroup) (codes : List ActionListOption)
    (saved : List OrviboIRCode) :
    listCodes groups codes saved =
      codes ++ (saved.filter (fun c => decide (c.Group = groups.Name))).map codeOption := by
  unfold listCodes
  induction saved generalizing codes with
  | nil => simp
  | cons c cs ih =>
    rw [List.foldl_cons, ih]
    by_cases h : c.Group = groups.Name <;> simp [h]

/-- The outer loop of `list` enters every pass with `codes` nil and appends one section
per group. -/
theorem listStep_foldl (saved : List OrviboIRCode) (gs : List OrviboIRCodeGroup)
    (sections : List Section) :
    gs.foldl (listStep saved) ([], sections) =
      ([], sections ++ gs.map (fun g =>
        groupSection g ((saved.filter (fun c => decide (c.Group = g.Name))).map codeOption))) := by
  induction gs generalizing sections with
  | nil => simp
  | cons g gs ih =>
    rw [List.foldl_cons]
    have hstep : listStep saved ([], sections) g =
        ([], sections ++ [groupSection g
          ((saved.filter (fun c => decide (c.Group = g.Name))).map codeOption)]) := by
      simp [listStep, listCodes_eq]
    rw [hstep, ih]
    simp

/-- The sections of the list screen, group by group. -/
theorem list_Sections (driver : OrviboDriver) :
    (list driver).Sections =
      driver.config.CodeGroups.map (fun g =>
        groupSection g
          ((driver.config.Codes.filter (fun c => decide (c.Group = g.Name))).map codeOption)) := by
  simp [list, listStep_foldl]

@[simp]
theorem groupSection_title (g : OrviboIRCodeGroup) (codes : List ActionListOption) :
    (groupSection g codes).title = some g.Name := rfl

@[simp]
theorem groupSection_options (g : OrviboIRCodeGroup) (codes : List ActionListOption) :
    (groupSection g codes).options = codes := by
  simp [groupSection, Section.options]

/-- C1: `list` returns the screen "Saved IR Codes" with one section per code group, in
stored order; the section of a group carries its name and description and, as options,
exactly the saved codes whose `Group` is the group's name, in stored order, each with
title = name, subtitle = description, value = code ++ "|" ++ allone. So every option of a
section comes from a saved code of the section's group, and a saved code whose `Group`
is no group's name is listed by no section. -/
theorem list_one_section_per_group (driver : OrviboDriver) :
    list driver =
      { Title := "Saved IR Codes"
        Sections := driver.config.CodeGroups.map (fun g =>
          ⟨[ .StaticText g.Name g.Description,
             .ActionList "code"
               ((driver.config.Codes.filter (fun c => decide (c.Group = g.Name))).map
                 (fun c => ⟨c.Name, c.Description, c.Code ++ "|" ++ c.AllOne⟩))
               (some ⟨"blastir", "Blast", "danger", "star"⟩)
               (some ⟨"delete", "Delete", "danger", "trash"⟩) ]⟩)
        Actions :=
          [ .CloseAction "Close",
            .Reply ⟨"new", "New IR Code", "success", "asterisk"⟩,
            .Reply ⟨"newgroup", "New IR Group", "default", "asterisk"⟩ ] }
    ∧ (list driver).Sections.length = driver.config.CodeGroups.length
    ∧ (∀ s ∈ (list driver).Sections, ∀ o ∈ s.options,
        ∃ c ∈ driver.config.Codes, o = codeOption c ∧ s.title = some c.Group)
    ∧ (∀ c ∈ driver.config.Codes,
        (∀ g ∈ driver.config.CodeGroups, c.Group ≠ g.Name) →
          ∀ s ∈ (list driver).Sections, listsEntry s c = false) := by
  refine ⟨?_, ?_, ?_, ?_⟩
  · have h := list_Sections driver
    cases hl : list driver with
    | mk t ss as =>
      rw [hl] at h
      simp only at h
      have ht : (list driver).Title = "Saved IR Codes" := rfl
      have ha : (list driver).Actions =
          [ .CloseAction "Close",
            .Reply ⟨"new", "New IR Code", "success", "asterisk"⟩,
            .Reply ⟨"newgroup", "New IR Group", "default", "asterisk"⟩ ] := rfl
      rw [hl] at ht ha
      simp only at ht ha
      subst ht ha h
      rfl
  · simp [list_Sections]
  · intro s hs o ho
    rw [list_Sections, List.mem_map] at hs
    obtain ⟨g, _, rfl⟩ := hs
    rw [groupSection_options, List.mem_map] at ho
    obtain ⟨c, hc, rfl⟩ := ho
    rw [List.mem_filter] at hc
    exact ⟨c, hc.1, rfl, by simpa using (of_decide_eq_true hc.2).symm⟩
  · intro c _ hnone s hs
    rw [list_Sections, List.mem_map] at hs
    obtain ⟨g, hg, rfl⟩ := hs
    have hne : g.Name ≠ c.Group := fun h => hnone g hg h.symm
    simp [listsEntry, hne]

/-! ## The router, case by case -/

/-- C2: a `save` request whose payload parses arms the learning session with the payload's
name, description, allone and group (empty for a missing key), leaves the saved codes, the
groups and the devices as they were, and returns the confirmation screen "Learning IR
code" whose only action is named "list". -/
theorem Configure_save_arms_learning (ext : External) (driver : OrviboDriver)
    (request : ConfigurationRequest) (haction : request.Action = "save")
    (hjson : request.json.err = none) :
    ∃ driver',
      Configure ext driver request =
        .ok (⟨"Learning IR code",
              [⟨[.StaticText "About this screen"
                  "Please press a button on your remote. Click \x27Okay\x27 when done"]⟩],
              [.Reply ⟨"list", "Okay", "success", "ok"⟩]⟩, driver')
      ∧ driver'.config.learningIR = true
      ∧ driver'.config.learningIRName = lookup request.json.vals "name"
      ∧ driver'.config.learningIRDescription = lookup request.json.vals "description"
      ∧ driver'.config.learningIRDevice = lookup request.json.vals "allone"
      ∧ driver'.config.learningIRGroup = lookup request.json.vals "group"
      ∧ driver'.config.Codes = driver.config.Codes
      ∧ driver'.config.CodeGroups = driver.config.CodeGroups
      ∧ driver'.device = driver.device := by
  refine ⟨{ driver with config :=
      { driver.config with
          learningIR := true
          learningIRName := lookup request.json.vals "name"
          learningIRDescription := lookup request.json.vals "description"
          learningIRDevice := lookup request.json.vals "allone"
          learningIRGroup := lookup request.json.vals "group" } },
    ?_, rfl, rfl, rfl, rfl, rfl, rfl, rfl, rfl⟩
  simp [Configure, haction, hjson, confirm]

/-- C2 at the request `saveRequest` on `idleDriver`. -/
theorem Configure_save_arms_learning_witness :
    saveRequest.Action = "save" ∧ saveRequest.json.err = none ∧
    ∃ driver',
      Configure external idleDriver saveRequest =
        .ok (⟨"Learning IR code",
              [⟨[.StaticText "About this screen"
                  "Please press a button on your remote. Click \x27Okay\x27 when done"]⟩],
              [.Reply ⟨"list", "Okay", "success", "ok"⟩]⟩, driver')
      ∧ driver'.config.learningIR = true
      ∧ driver'.config.learningIRName = lookup saveRequest.json.vals "name"
      ∧ driver'.config.learningIRDescription = lookup saveRequest.json.vals "description"
      ∧ driver'.config.learningIRDevice = lookup saveRequest.json.vals "allone"
      ∧ driver'.config.learningIRGroup = lookup saveRequest.json.vals "group"
      ∧ driver'.config.Codes = idleDriver.config.Codes
      ∧ driver'.config.CodeGroups = idleDriver.config.CodeGroups
      ∧ driver'.device = idleDriver.device :=
  ⟨rfl, rfl, Configure_save_arms_learning external idleDriver saveRequest rfl rfl⟩

/-- C3: `reset` empties the saved codes, disarms the learning session, keeps the groups and
the devices, and returns the list screen of the configuration it leaves. -/
theorem Configure_reset_clears_codes (ext : External) (driver : OrviboDriver)
    (request : ConfigurationRequest) (haction : request.Action = "reset") :
    ∃ driver',
      Configure ext driver request = .ok (list driver', driver')
      ∧ driver'.config.Codes = []
      ∧ driver'.config.learningIR = false
      ∧ driver'.config.CodeGroups = driver.config.CodeGroups
      ∧ driver'.device = driver.device := by
  refine ⟨{ driver with config :=
      { driver.config with Codes := [], learningIR := false, learningIRName := "" } },
    ?_, rfl, rfl, rfl, rfl⟩
  simp [Configure, haction]

/-- C3 at a `reset` request on `armedDriver`. -/
theorem Configure_reset_clears_codes_witness :
    (bareRequest "reset").Action = "reset" ∧
    ∃ driver',
      Configure external armedDriver (bareRequest "reset") = .ok (list driver', driver')
      ∧ driver'.config.Codes = []
      ∧ driver'.config.learningIR = false
      ∧ driver'.config.CodeGroups = armedDriver.config.CodeGroups
      ∧ driver'.device = armedDriver.device :=
  ⟨rfl, Configure_reset_clears_codes external armedDriver (bareRequest "reset") rfl⟩

/-- C4: an action outside the vocabulary gets the Error screen whose alert reads
"Unknown action: " followed by the action, with no panic and the driver as it was. -/
theorem Configure_unknown_action (ext : External) (driver : OrviboDriver)
    (request : ConfigurationRequest)
    (h1 : request.Action ≠ "list") (h2 : request.Action ≠ "new")
    (h3 : request.Action ≠ "newgroup") (h4 : request.Action ≠ "save")
    (h5 : request.Action ≠ "savegroup") (h6 : request.Action ≠ "blastir")
    (h7 : request.Action ≠ "delete") (h8 : request.Action ≠ "reset")
    (h9 : request.Action ≠ "") :
    Configure ext driver request =
      .ok (⟨"", [⟨[.Alert "Error" ("Unknown action: " ++ request.Action) "danger"]⟩],
            [.Reply ⟨"list", "Cancel", "success", "ok"⟩]⟩, driver) := by
  simp [Configure, h1, h2, h3, h4, h5, h6, h7, h8, h9, error]

/-- C4 at the action "bogus". -/
theorem Configure_unknown_action_witness :
    Configure external idleDriver (bareRequest "bogus") =
      .ok (⟨"", [⟨[.Alert "Error" "Unknown action: bogus" "danger"]⟩],
            [.Reply ⟨"list", "Cancel", "success", "ok"⟩]⟩, idleDriver) :=
  Configure_unknown_action external idleDriver (bareRequest "bogus")
    (by decide) (by decide) (by decide) (by decide) (by decide) (by decide) (by decide)
    (by decide) (by decide)

/-- The guarded payload readers (`delete`, `savegroup`, `save`): a payload that does not
parse gets the Error screen naming the payload and the decoder's error, and the driver
stays as it was. -/
theorem Configure_guarded_unparsed_payload (ext : External) (driver : OrviboDriver)
    (request : ConfigurationRequest) (err : String)
    (haction : request.Action = "delete" ∨ request.Action = "savegroup" ∨
      request.Action = "save")
    (hjson : request.json.err = some err) :
    Configure ext driver request =
      .ok (⟨"", [⟨[.Alert "Error"
              ("Failed to unmarshal save config request " ++ request.Data ++ ": " ++ err)
              "danger"]⟩],
            [.Reply ⟨"list", "Cancel", "success", "ok"⟩]⟩, driver) := by
  rcases haction with h | h | h <;>
    simp [Configure, h, hjson, error, unmarshalMessage]

/-- C5, the `blastir` case: the payload "" does not parse, the decoder's error is not
read, `vals` stays nil, `vals["code"]` is "" and splits into one piece, and `codes[1]`
panics: no Error screen is returned. -/
theorem Configure_blastir_unparsed_payload_panics (ext : External) (driver : OrviboDriver) :
    Configure ext driver (bareRequest "blastir") = .error (.indexOutOfRange 1 1) := by
  rfl

/-- C6: on the parsed payload of `blastRequest`, whose code "A1B2C3" has no separator,
`strings.Split` gives one piece and `codes[1]` panics: no list screen is returned. -/
theorem Configure_blastir_no_separator_panics (ext : External) (driver : OrviboDriver) :
    Configure ext driver blastRequest = .error (.indexOutOfRange 1 1) := by
  rfl

/-- What `reset` does to the learning session of any driver: disarmed, the pending name
emptied, the pending description, device and group kept. -/
theorem Configure_reset_session (ext : External) (driver : OrviboDriver)
    (request : ConfigurationRequest) (haction : request.Action = "reset") :
    ∃ driver',
      Configure ext driver request = .ok (list driver', driver')
      ∧ driver'.config.learningIR = false
      ∧ driver'.config.learningIRName = ""
      ∧ driver'.config.learningIRDescription = driver.config.learningIRDescription
      ∧ driver'.config.learningIRDevice = driver.config.learningIRDevice
      ∧ driver'.config.learningIRGroup = driver.config.learningIRGroup := by
  refine ⟨{ driver with config :=
      { driver.config with Codes := [], learningIR := false, learningIRName := "" } },
    ?_, rfl, rfl, rfl, rfl, rfl⟩
  simp [Configure, haction]

/-- C9: `reset` on the armed driver `armedDriver` disarms the session and empties the
pending name, and leaves the pending description, device and group as they were. -/
theorem Configure_reset_keeps_pending_fields (ext : External) :
    ∃ driver',
      Configure ext armedDriver (bareRequest "reset") = .ok (list driver', driver')
      ∧ driver'.config.learningIR = false
      ∧ driver'.config.learningIRName = ""
      ∧ driver'.config.learningIRDescription = "Living Room TV Off"
      ∧ driver'.config.learningIRDevice = "AA:BB:CC:DD:EE:FF"
      ∧ driver'.config.learningIRGroup = "Home Theater" :=
  ⟨{ armedDriver with config :=
      { armedDriver.config with Codes := [], learningIR := false, learningIRName := "" } },
    rfl, rfl, rfl, rfl, rfl, rfl⟩

/-! ## Splitting at the separator -/

/-- Without a separator the rest of the input is the last piece. -/
theorem splitAux_no_sep (sep : Char) (cur cs : List Char) (h : sep ∉ cs) :
    splitAux sep cur cs = [cur.reverse ++ cs] := by
  induction cs generalizing cur with
  | nil => simp [splitAux]
  | cons c cs ih =>
    have hc : c ≠ sep := fun e => h (by simp [e])
    have hcs : sep ∉ cs := fun e => h (by simp [e])
    simp [splitAux, hc, ih (c :: cur) hcs]

/-- The first separator closes the first piece. -/
theorem splitAux_append_sep (sep : Char) (cur a b : List Char) (h : sep ∉ a) :
    splitAux sep cur (a ++ sep :: b) = (cur.reverse ++ a) :: splitAux sep [] b := by
  induction a generalizing cur with
  | nil => simp [splitAux]
  | cons c cs ih =>
    have hc : c ≠ sep := fun e => h (by simp [e])
    have hcs : sep ∉ cs := fun e => h (by simp [e])
    simp [splitAux, hc, ih (c :: cur) hcs]

/-- Splitting gives at least one piece. -/
theorem splitAux_length_pos (sep : Char) (cur cs : List Char) :
    1 ≤ (splitAux sep cur cs).length := by
  induction cs generalizing cur with
  | nil => simp [splitAux]
  | cons c cs ih =>
    by_cases hc : c = sep
    · simp [splitAux, hc]
    · simpa [splitAux, hc] using ih (c :: cur)

/-- A separator in the input gives at least two pieces. -/
theorem splitAux_length_of_mem (sep : Char) (cur cs : List Char) (h : sep ∈ cs) :
    2 ≤ (splitAux sep cur cs).length := by
  induction cs generalizing cur with
  | nil => simp at h
  | cons c cs ih =>
    by_cases hc : c = sep
    · have hpos := splitAux_length_pos sep [] cs
      simp only [splitAux, hc, if_true, List.length_cons]
      omega
    · have hcs : sep ∈ cs := by
        rcases List.mem_cons.mp h with e | e
        · exact absurd e.symm hc
        · exact e
      simp only [splitAux, hc, if_false]
      exact ih (c :: cur) hcs

/-- C7: for a saved code whose code and device address hold no "|", splitting the value
of its list option at "|", as `blastir` does, gives exactly the two pieces code and
device address, which `codes[0]` and `codes[1]` read back. -/
theorem Split_codeOption_value (code : OrviboIRCode)
    (hcode : '|' ∉ code.Code.data) (hallone : '|' ∉ code.AllOne.data) :
    (codeOption code).Value = code.Code ++ "|" ++ code.AllOne
    ∧ Split (codeOption code).Value '|' = [code.Code, code.AllOne]
    ∧ index (Split (codeOption code).Value '|') 0 = .ok code.Code
    ∧ index (Split (codeOption code).Value '|') 1 = .ok code.AllOne := by
  have hsplit : Split (codeOption code).Value '|' = [code.Code, code.AllOne] := by
    have hdata : (codeOption code).Value.data = code.Code.data ++ '|' :: code.AllOne.data := by
      simp [codeOption, String.data_append]
    unfold Split
    rw [hdata, splitAux_append_sep _ _ _ _ hcode, splitAux_no_sep _ _ _ hallone]
    simp
  refine ⟨rfl, hsplit, ?_, ?_⟩ <;> rw [hsplit] <;> rfl

/-- C7 at the saved code `tvOn`: "A1B2C3|AA:BB:CC:DD:EE:FF" splits into "A1B2C3" and
"AA:BB:CC:DD:EE:FF". -/
theorem Split_codeOption_value_witness :
    (codeOption tvOn).Value = "A1B2C3|AA:BB:CC:DD:EE:FF"
    ∧ Split "A1B2C3|AA:BB:CC:DD:EE:FF" '|' = ["A1B2C3", "AA:BB:CC:DD:EE:FF"]
    ∧ index (Split "A1B2C3|AA:BB:CC:DD:EE:FF" '|') 0 = .ok "A1B2C3"
    ∧ index (Split "A1B2C3|AA:BB:CC:DD:EE:FF" '|') 1 = .ok "AA:BB:CC:DD:EE:FF" :=
  Split_codeOption_value tvOn (by decide) (by decide)

/-- The `blastir` case on a payload whose code holds a separator: the list screen, the
driver as it was, whether or not the decoder reported an error. -/
theorem Configure_blastir_with_separator (ext : External) (driver : OrviboDriver)
    (request : ConfigurationRequest) (haction : request.Action = "blastir")
    (hsep : '|' ∈ (lookup request.json.vals "code").data) :
    Configure ext driver request = .ok (list driver, driver) := by
  have hlen : 2 ≤ (Split (lookup request.json.vals "code") '|').length := by
    simpa [Split] using splitAux_length_of_mem '|' [] _ hsep
  have h0 : ∃ x, index (Split (lookup request.json.vals "code") '|') 0 = .ok x := by
    cases hs : Split (lookup request.json.vals "code") '|' with
    | nil => rw [hs] at hlen; simp at hlen
    | cons x xs => exact ⟨x, rfl⟩
  have h1 : ∃ y, index (Split (lookup request.json.vals "code") '|') 1 = .ok y := by
    cases hs : Split (lookup request.json.vals "code") '|' with
    | nil => rw [hs] at hlen; simp at hlen
    | cons x xs =>
      cases xs with
      | nil => rw [hs] at hlen; simp at hlen
      | cons y ys => exact ⟨y, rfl⟩
  obtain ⟨x, hx⟩ := h0
  obtain ⟨y, hy⟩ := h1
  simp [Configure, haction, hx, hy]

/-! ## Creating groups -/

/-- One `savegroup` request whose payload parses appends the submitted group and returns
the list screen, when saving leaves the configuration as it is. -/
theorem Configure_savegroup (ext : External) (driver : OrviboDriver)
    (request : ConfigurationRequest) (hsave : ∀ config, ext.saveGroups config = config)
    (haction : request.Action = "savegroup") (hjson : request.json.err = none) :
    Configure ext driver request =
      .ok (list { driver with config := { driver.config with
                    CodeGroups := driver.config.CodeGroups ++ [createdGroup request] } },
           { driver with config := { driver.config with
                    CodeGroups := driver.config.CodeGroups ++ [createdGroup request] } }) := by
  simp [Configure, haction, hjson, hsave, createdGroup]

/-- A run of `savegroup` requests appends the submitted groups in order. -/
theorem ConfigureAll_savegroup (ext : External) (driver : OrviboDriver)
    (requests : List ConfigurationRequest) (hsave : ∀ config, ext.saveGroups config = config)
    (hrequests : ∀ r ∈ requests, r.Action = "savegroup" ∧ r.json.err = none) :
    ConfigureAll ext driver requests =
      .ok { driver with config := { driver.config with
              CodeGroups := driver.config.CodeGroups ++ requests.map createdGroup } } := by
  induction requests generalizing driver with
  | nil => simp [ConfigureAll]
  | cons r rs ih =>
    have hr := hrequests r (by simp)
    have hrs : ∀ q ∈ rs, q.Action = "savegroup" ∧ q.json.err = none :=
      fun q hq => hrequests q (by simp [hq])
    simp only [ConfigureAll, Configure_savegroup ext driver r hsave hr.1 hr.2]
    rw [ih _ hrs]
    simp

/-- C8: after a run of `savegroup` requests whose payloads parse, served without panic, the
groups are the earlier groups followed by one group per request, in order, with the
submitted name and description; the saved codes, the learning session and the devices are
as before; and `list` then returns the sections of the earlier groups, unchanged and in
their order, followed by one section per created group. The method `driver.saveGroups`,
defined outside `configuration.go`, is taken to leave the configuration as it is. -/
theorem savegroup_then_list (ext : External) (driver : OrviboDriver)
    (requests : List ConfigurationRequest) (listRequest : ConfigurationRequest)
    (hsave : ∀ config, ext.saveGroups config = config)
    (hrequests : ∀ r ∈ requests, r.Action = "savegroup" ∧ r.json.err = none)
    (hlist : listRequest.Action = "list") :
    ∃ driver' screen,
      ConfigureAll ext driver requests = .ok driver'
      ∧ Configure ext driver' listRequest = .ok (screen, driver')
      ∧ screen.Title = "Saved IR Codes"
      ∧ screen.Sections = (list driver).Sections ++ requests.map (fun r =>
          groupSection (createdGroup r)
            ((driver.config.Codes.filter
              (fun c => decide (c.Group = (createdGroup r).Name))).map codeOption))
      ∧ driver'.config.CodeGroups = driver.config.CodeGroups ++ requests.map createdGroup
      ∧ driver'.config.Codes = driver.config.Codes
      ∧ driver'.config.learningIR = driver.config.learningIR
      ∧ driver'.config.learningIRName = driver.config.learningIRName
      ∧ driver'.config.learningIRDescription = driver.config.learningIRDescription
      ∧ driver'.config.learningIRDevice = driver.config.learningIRDevice
      ∧ driver'.config.learningIRGroup = driver.config.learningIRGroup
      ∧ driver'.device = driver.device := by
  refine ⟨{ driver with config := { driver.config with
              CodeGroups := driver.config.CodeGroups ++ requests.map createdGroup } },
    list { driver with config := { driver.config with
              CodeGroups := driver.config.CodeGroups ++ requests.map createdGroup } },
    ConfigureAll_savegroup ext driver requests hsave hrequests, ?_, rfl, ?_,
    rfl, rfl, rfl, rfl, rfl, rfl, rfl, rfl⟩
  · simp [Configure, hlist]
  · simp [list_Sections, List.map_append, List.map_map, Function.comp_def]

/-- C8 at two `savegroup` requests on `idleDriver`: the section of "Home Theater" is
followed by those of "Bedroom" and "Kitchen". -/
theorem savegroup_then_list_witness :
    ∃ driver' screen,
      ConfigureAll external idleDriver
        [savegroupRequest "Bedroom" "Bedroom codes", savegroupRequest "Kitchen" ""]
        = .ok driver'
      ∧ Configure external driver' (bareRequest "list") = .ok (screen, driver')
      ∧ screen.Sections.map Section.title =
          [some "Home Theater", some "Bedroom", some "Kitchen"]
      ∧ driver'.config.CodeGroups =
          [⟨"Home Theater", "Codes related to the home theater"⟩,
           ⟨"Bedroom", "Bedroom codes"⟩, ⟨"Kitchen", ""⟩]
      ∧ driver'.config.Codes = [tvOn] := by
  obtain ⟨d, s, h1, h2, _, h4, h5, h6, _⟩ :=
    savegroup_then_list external idleDriver
      [savegroupRequest "Bedroom" "Bedroom codes", savegroupRequest "Kitchen" ""]
      (bareRequest "list") (fun _ => rfl)
      (by
        intro r hr
        simp only [List.mem_cons, List.mem_singleton, List.not_mem_nil, or_false] at hr
        rcases hr with rfl | rfl <;> exact ⟨rfl, rfl⟩)
      rfl
  refine ⟨d, s, h1, h2, ?_, ?_, ?_⟩
  · rw [h4]; rfl
  · rw [h5]; rfl
  · rw [h6]; rfl

/-! ## Counting what is listed -/

/-- A section built for a group of another name does not list the code. -/
theorem listsEntry_groupSection (g : OrviboIRCodeGroup) (codes : List ActionListOption)
    (c : OrviboIRCode) (h : g.Name ≠ c.Group) :
    listsEntry (groupSection g codes) c = false := by
  simp [listsEntry, h]

/-- Among sections built for groups of distinct names, at most one lists a given code. -/
theorem filter_listsEntry_le_one (gs : List OrviboIRCodeGroup)
    (f : OrviboIRCodeGroup → List ActionListOption) (c : OrviboIRCode)
    (hnodup : (gs.map (fun g => g.Name)).Nodup) :
    ((gs.map (fun g => groupSection g (f g))).filter (fun s => listsEntry s c)).length ≤ 1 := by
  induction gs with
  | nil => simp
  | cons g gs ih =>
    rw [List.map_cons, List.nodup_cons] at hnodup
    by_cases hg : g.Name = c.Group
    · have hrest : (gs.map (fun g => groupSection g (f g))).filter (fun s => listsEntry s c)
          = [] := by
        rw [List.filter_eq_nil_iff]
        intro s hs
        rw [List.mem_map] at hs
        obtain ⟨g', hg', rfl⟩ := hs
        have hne : g'.Name ≠ c.Group := by
          intro e
          exact hnodup.1 (List.mem_map.mpr ⟨g', hg', by rw [e, hg]⟩)
        simp [listsEntry_groupSection g' (f g') c hne]
      rw [List.map_cons, List.filter_cons, hrest]
      split <;> simp
    · rw [List.map_cons, List.filter_cons, listsEntry_groupSection g (f g) c hg]
      simpa using ih hnodup.2

/-- Codes of one group and codes of other groups are counted apart. -/
theorem filter_length_split (codes : List OrviboIRCode) (g : OrviboIRCodeGroup)
    (gs : List OrviboIRCodeGroup) (hg : g.Name ∉ gs.map (fun g => g.Name)) :
    (codes.filter (fun c => (g :: gs).any (fun g => decide (c.Group = g.Name)))).length =
      (codes.filter (fun c => decide (c.Group = g.Name))).length +
      (codes.filter (fun c => gs.any (fun g => decide (c.Group = g.Name)))).length := by
  induction codes with
  | nil => simp
  | cons c cs ih =>
    by_cases hc : c.Group = g.Name
    · have hnot : gs.any (fun g => decide (c.Group = g.Name)) = false := by
        rw [List.any_eq_false]
        intro g' hg' e
        exact hg (List.mem_map.mpr ⟨g', hg', by rw [← of_decide_eq_true e, hc]⟩)
      simp only [List.filter_cons, List.any_cons, hc, decide_True, Bool.true_or, if_true,
        List.length_cons] at ih ⊢
      rw [hc] at hnot
      simp only [hnot, Bool.false_eq_true, if_false]
      omega
    · simp only [List.filter_cons, List.any_cons, hc, decide_False, Bool.false_or,
        Bool.false_eq_true, if_false] at ih ⊢
      split
      · simp only [List.length_cons]; omega
      · exact ih

/-- Over groups of distinct names the options add up to the codes that have a group. -/
theorem options_sum_eq (codes : List OrviboIRCode) (gs : List OrviboIRCodeGroup)
    (hnodup : (gs.map (fun g => g.Name)).Nodup) :
    ((gs.map (fun g => groupSection g
        ((codes.filter (fun c => decide (c.Group = g.Name))).map codeOption))).map
      (fun s => s.options.length)).sum =
    (codes.filter (fun c => gs.any (fun g => decide (c.Group = g.Name)))).length := by
  induction gs with
  | nil => simp
  | cons g gs ih =>
    rw [List.map_cons, List.nodup_cons] at hnodup
    rw [filter_length_split codes g gs hnodup.1, ← ih hnodup.2]
    simp

/-- Taking out a code that a filter rejects leaves the filtered list as it is. -/
theorem filter_eraseIdx_of_false (p : OrviboIRCode → Bool) (l : List OrviboIRCode) (k : Nat)
    (c : OrviboIRCode) (hk : l.get? k = some c) (hp : p c = false) :
    (l.eraseIdx k).filter p = l.filter p := by
  induction l generalizing k with
  | nil => simp at hk
  | cons a l ih =>
    cases k with
    | zero =>
      simp only [List.get?_cons_zero, Option.some.injEq] at hk
      subst hk
      simp [List.filter_cons, hp]
    | succ k =>
      simp only [List.get?_cons_succ] at hk
      simp only [List.eraseIdx_cons_succ, List.filter_cons, ih k hk]

/-- Taking out a code that a filter keeps shortens the filtered list by one. -/
theorem filter_eraseIdx_of_true (p : OrviboIRCode → Bool) (l : List OrviboIRCode) (k : Nat)
    (c : OrviboIRCode) (hk : l.get? k = some c) (hp : p c = true) :
    ((l.eraseIdx k).filter p).length + 1 = (l.filter p).length := by
  induction l generalizing k with
  | nil => simp at hk
  | cons a l ih =>
    cases k with
    | zero =>
      simp only [List.get?_cons_zero, Option.some.injEq] at hk
      subst hk
      simp [List.filter_cons, hp]
    | succ k =>
      simp only [List.get?_cons_succ] at hk
      have h := ih k hk
      simp only [List.eraseIdx_cons_succ, List.filter_cons]
      split
      · simp only [List.length_cons]; omega
      · exact h

/-- The section of a group changes with the `k`-th saved code taken out exactly when the
group has the name that code gives as its `Group`. -/
theorem groupSection_changes_iff (saved : List OrviboIRCode) (k : Nat) (c : OrviboIRCode)
    (hk : saved.get? k = some c) (g : OrviboIRCodeGroup) :
    groupSection g ((saved.filter (fun c => decide (c.Group = g.Name))).map codeOption) ≠
      groupSection g
        (((saved.eraseIdx k).filter (fun c => decide (c.Group = g.Name))).map codeOption)
    ↔ c.Group = g.Name := by
  constructor
  · intro hne
    by_contra hc
    apply hne
    rw [filter_eraseIdx_of_false _ saved k c hk (by simpa using hc)]
  · intro hc heq
    have hlen := filter_eraseIdx_of_true (fun c => decide (c.Group = g.Name)) saved k c hk
      (by simpa using hc)
    have hopt := congrArg (fun s => s.options.length) heq
    simp only [groupSection_options, List.length_map] at hopt
    omega

/-- Sections built group by group in two ways differ at as many positions as there are
groups for which the two ways differ. -/
theorem countP_zip_map (gs : List OrviboIRCodeGroup) (f1 f2 : OrviboIRCodeGroup → Section) :
    ((gs.map f1).zip (gs.map f2)).countP (fun p => decide (p.1 ≠ p.2)) =
      (gs.filter (fun g => decide (f1 g ≠ f2 g))).length := by
  induction gs with
  | nil => simp
  | cons g gs ih =>
    simp only [List.map_cons, List.zip_cons_cons, List.countP_cons, List.filter_cons, ih]
    by_cases h : f1 g = f2 g <;> simp [h]

/-- The `k`-th saved code appears in as many sections as there are groups with the name it
gives as its `Group`. -/
theorem sectionsShowing_eq (driver : OrviboDriver) (k : Nat) (c : OrviboIRCode)
    (hk : driver.config.Codes.get? k = some c) :
    sectionsShowing driver k =
      (driver.config.CodeGroups.filter (fun g => decide (c.Group = g.Name))).length := by
  unfold sectionsShowing
  rw [list_Sections, list_Sections]
  simp only [withoutCode]
  rw [countP_zip_map]
  congr 1
  apply List.filter_congr
  intro g _
  have h := groupSection_changes_iff driver.config.Codes k c hk g
  by_cases hc : c.Group = g.Name
  · simp only [hc, decide_True, decide_eq_true_eq]
    exact h.mpr hc
  · simp only [hc, decide_False, decide_eq_false_iff_not]
    exact fun hne => hc (h.mp hne)

/-- Among groups of distinct names at most one has a given name. -/
theorem filter_name_le_one (gs : List OrviboIRCodeGroup) (name : String)
    (hnodup : (gs.map (fun g => g.Name)).Nodup) :
    (gs.filter (fun g => decide (name = g.Name))).length ≤ 1 := by
  induction gs with
  | nil => simp
  | cons g gs ih =>
    rw [List.map_cons, List.nodup_cons] at hnodup
    by_cases hg : name = g.Name
    · have hrest : gs.filter (fun g => decide (name = g.Name)) = [] := by
        rw [List.filter_eq_nil_iff]
        intro g' hg' e
        exact hnodup.1 (List.mem_map.mpr ⟨g', hg', by rw [← of_decide_eq_true e, hg]⟩)
      rw [List.filter_cons, hrest]
      split <;> simp
    · simpa [List.filter_cons, hg] using ih hnodup.2

/-- C10: the `k`-th saved code appears in (is, once taken out of the store, missed by) as
many sections of `list` as there are groups with the name it gives as its `Group`: it is
listed once under every such group. So when the groups have pairwise distinct names, each
saved code appears in at most one section, at most one section is titled with its group
and holds its option, and the options of all sections number the saved codes whose `Group`
is some group's name. Without distinct names this fails: in `twinGroupsDriver` the one
saved code appears in both sections, which hold two options in all. -/
theorem list_entry_in_at_most_one_section :
    (∀ (driver : OrviboDriver) (k : Nat) (c : OrviboIRCode),
      driver.config.Codes.get? k = some c →
        sectionsShowing driver k =
          (driver.config.CodeGroups.filter (fun g => decide (c.Group = g.Name))).length)
    ∧ (∀ driver : OrviboDriver,
      (driver.config.CodeGroups.map (fun g => g.Name)).Nodup →
        (∀ k, k < driver.config.Codes.length → sectionsShowing driver k ≤ 1)
        ∧ (∀ c ∈ driver.config.Codes,
          ((list driver).Sections.filter (fun s => listsEntry s c)).length ≤ 1)
        ∧ optionCount (list driver) =
            (driver.config.Codes.filter (fun c =>
              driver.config.CodeGroups.any (fun g => decide (c.Group = g.Name)))).length)
    ∧ (¬ (twinGroupsDriver.config.CodeGroups.map (fun g => g.Name)).Nodup
        ∧ twinGroupsDriver.config.Codes = [tvOn]
        ∧ sectionsShowing twinGroupsDriver 0 = 2
        ∧ ((list twinGroupsDriver).Sections.filter (fun s => listsEntry s tvOn)).length = 2
        ∧ optionCount (list twinGroupsDriver) = 2
        ∧ (twinGroupsDriver.config.Codes.filter (fun c =>
              twinGroupsDriver.config.CodeGroups.any
                (fun g => decide (c.Group = g.Name)))).length = 1) := by
  refine ⟨sectionsShowing_eq, fun driver hnodup => ⟨fun k hk => ?_, fun c _ => ?_, ?_⟩,
    ?_, ?_, ?_, ?_, ?_, ?_⟩
  · obtain ⟨c, hc⟩ : ∃ c, driver.config.Codes.get? k = some c :=
      ⟨_, List.get?_eq_get hk⟩
    rw [sectionsShowing_eq driver k c hc]
    exact filter_name_le_one _ _ hnodup
  · rw [list_Sections]
    exact filter_listsEntry_le_one _ _ c hnodup
  · rw [optionCount, list_Sections]
    exact options_sum_eq _ _ hnodup
  · decide
  · rfl
  · decide
  · decide
  · decide
  · decide

/-- C10 at `houseDriver`, three groups of distinct names and five saved codes: the two
codes of "Home Theater", the code of "Bedroom" and the code of "Kitchen" appear in one
section each, the code of the missing group "Garage" in none, and the three sections hold
2, 1 and 1 options, four in all, one per saved code that has a group. -/
theorem list_entry_in_at_most_one_section_witness :
    (houseDriver.config.CodeGroups.map (fun g => g.Name)).Nodup
    ∧ ((∀ k, k < houseDriver.config.Codes.length → sectionsShowing houseDriver k ≤ 1)
        ∧ (∀ c ∈ houseDriver.config.Codes,
          ((list houseDriver).Sections.filter (fun s => listsEntry s c)).length ≤ 1)
        ∧ optionCount (list houseDriver) =
            (houseDriver.config.Codes.filter (fun c =>
              houseDriver.config.CodeGroups.any (fun g => decide (c.Group = g.Name)))).length)
    ∧ (List.range 5).map (sectionsShowing houseDriver) = [1, 1, 1, 0, 1]
    ∧ (list houseDriver).Sections.map (fun s => s.options.length) = [2, 1, 1]
    ∧ optionCount (list houseDriver) = 4 :=
  ⟨by decide, list_entry_in_at_most_one_section.2.1 houseDriver (by decide),
    by decide, by decide, by decide⟩

end SphereOrvibo
